import Mathlib

/-!
Shallow embedding of the cross-modal finding reconciliation and risk
aggregation engine of the radiology discrepancy checker backend
(`backend/main.py`, `backend/run_analysis.py`, `backend/ml_models.py`),
together with theorems settling the specification claims about it.

Python floats are modelled as exact rationals (`ℚ`); Python `round(x, 1)`
(banker's rounding) is modelled by `round1`; Python's substring operator
`in` on strings is modelled by `strIn`.
-/

set_option autoImplicit false

/-- Python `needle.startswith(hay)`-style check on character lists:
`charsStartWith n h` is true when `n` is an initial segment of `h`. -/
def charsStartWith : List Char → List Char → Bool
  | [], _ => true
  | _ :: _, [] => false
  | n :: ns, h :: hs => n == h && charsStartWith ns hs

/-- The test `charsContain n h` is true when `n` occurs contiguously inside `h`
(Python `n in h` for strings, on the character-list level). -/
def charsContain : List Char → List Char → Bool
  | n, [] => n.isEmpty
  | n, h :: hs => charsStartWith n (h :: hs) || charsContain n hs

/-- Python `needle in hay` on strings. -/
def strIn (needle hay : String) : Bool :=
  charsContain needle.data hay.data

/-- Python `s.lower()`: lowercase every character (structurally, over the
character list). -/
def strLower (s : String) : String :=
  String.mk (s.data.map Char.toLower)

/-- Banker's rounding of a rational to the nearest integer
(round-half-to-even), as Python `round(x)` behaves on exact values. -/
def roundHalfEven (q : ℚ) : ℤ :=
  let f := ⌊q⌋
  let r := q - f
  if r < 1/2 then f
  else if 1/2 < r then f + 1
  else if Even f then f else f + 1

/-- Python `round(x, 1)` on exact rational values. -/
def round1 (q : ℚ) : ℚ :=
  (roundHalfEven (q * 10) : ℚ) / 10

/-- The apostrophe character used when the source quotes a finding name
inside an emitted description string. -/
def quoteStr : String :=
  String.singleton (Char.ofNat 39)

/-- A finding extracted from report text (a dict produced by
`_extract_findings_from_text` in `main.py` or by the NLP extractor):
`ftype` is the `type` key (`"pathological"` or `"normal"`), `finding` the
term, `severity` the optional `severity` key, `confidence` the score. -/
structure TextFinding where
  ftype : String
  finding : String
  severity : Option String
  confidence : ℚ
  deriving Repr, DecidableEq

/-- A pathology finding produced by image analysis: `itype` is the `type`
key, `severity` the optional `severity` key, `confidence` the score. -/
structure ImageFinding where
  itype : String
  severity : Option String
  confidence : ℚ
  deriving Repr, DecidableEq

namespace RadiologyAnalyzer

/-- The inline matcher of `RadiologyAnalyzer.compare_image_and_text`
(`main.py`): case-insensitive substring containment in either
direction between the text finding's term and the image finding's type. -/
def matchTerms (textTerm imageTerm : String) : Bool :=
  strIn (strLower textTerm) (strLower imageTerm) || strIn (strLower imageTerm) (strLower textTerm)

/-- An entry of the `agreements` list built by `compare_image_and_text`. -/
structure Agreement where
  finding : String
  text_confidence : ℚ
  image_confidence : ℚ
  deriving Repr, DecidableEq

/-- An entry of the `discrepancies` list built by
`compare_image_and_text` (`main.py`); `dtype` is the `type` key. -/
structure Discrepancy where
  dtype : String
  description : String
  severity : String
  confidence : ℚ
  source : String
  deriving Repr, DecidableEq

/-- The dict returned by `compare_image_and_text` (`main.py`). -/
structure CompareResult where
  discrepancies : List Discrepancy
  agreements : List Agreement
  agreement_percentage : ℚ
  total_discrepancies : ℕ
  cross_modal_confidence : ℚ
  deriving Repr, DecidableEq

/-- The inner loop of the false-positive pass: the first image finding
matching the given text finding, scanning in input order. -/
def findMatchingImage (tf : TextFinding) : List ImageFinding → Option ImageFinding
  | [] => none
  | im :: ims =>
    if matchTerms tf.finding im.itype then some im else findMatchingImage tf ims

/-- The false-positive discrepancy record emitted by
`compare_image_and_text` for an unmatched text finding: note the source
hardcodes `severity` to `"medium"`. -/
def fpRecord (tf : TextFinding) : Discrepancy :=
  { dtype := "false_positive"
    description := quoteStr ++ tf.finding ++ quoteStr ++
      " mentioned in report but not detected in image"
    severity := "medium"
    confidence := 100 - tf.confidence
    source := "text_only" }

/-- The agreement record emitted by `compare_image_and_text` for a text
finding matched to image finding `im`. -/
def agRecord (tf : TextFinding) (im : ImageFinding) : Agreement :=
  { finding := tf.finding
    text_confidence := tf.confidence
    image_confidence := im.confidence }

/-- The first loop of `compare_image_and_text`: for each pathological
text finding, in order, either an agreement (first matching image
finding) or a false-positive discrepancy. -/
def textPass (imgs : List ImageFinding) :
    List TextFinding → List Discrepancy × List Agreement
  | [] => ([], [])
  | tf :: tfs =>
    let rest := textPass imgs tfs
    match findMatchingImage tf imgs with
    | none => (fpRecord tf :: rest.1, rest.2)
    | some im => (rest.1, agRecord tf im :: rest.2)

/-- The inner loop of the false-negative pass: the first pathological
text finding matching the given image finding. -/
def findMatchingText (im : ImageFinding) : List TextFinding → Option TextFinding
  | [] => none
  | tf :: tfs =>
    if matchTerms tf.finding im.itype then some tf else findMatchingText im tfs

/-- The false-negative discrepancy record emitted by
`compare_image_and_text` for an unmatched image finding: the source
hardcodes `severity` to `"high"`. -/
def fnRecord (im : ImageFinding) : Discrepancy :=
  { dtype := "false_negative"
    description := quoteStr ++ im.itype ++ quoteStr ++
      " detected in image but not mentioned in report"
    severity := "high"
    confidence := im.confidence
    source := "image_only" }

/-- The second loop of `compare_image_and_text`: a false-negative
discrepancy for every image finding with no matching text finding. -/
def imagePass (tps : List TextFinding) : List ImageFinding → List Discrepancy
  | [] => []
  | im :: ims =>
    match findMatchingText im tps with
    | none => fnRecord im :: imagePass tps ims
    | some _ => imagePass tps ims

/-- Embedding of `RadiologyAnalyzer.compare_image_and_text` (`main.py`, lines
331-393): filters text findings to the pathological ones, runs the two
matching passes, and assembles the result dict.  The agreement
percentage is `(2·|agreements| / max(total,1))·100` when `total > 0`
and `100` otherwise, rounded to one decimal; the cross-modal confidence
is `100 − 15·|discrepancies|` rounded to one decimal (no clamping). -/
def compare_image_and_text (image_findings : List ImageFinding)
    (text_findings : List TextFinding) : CompareResult :=
  let text_pathology := text_findings.filter (fun f => f.ftype == "pathological")
  let passed := textPass image_findings text_pathology
  let discrepancies := passed.1 ++ imagePass text_pathology image_findings
  let agreements := passed.2
  let total_findings := text_pathology.length + image_findings.length
  let agreement_percentage : ℚ :=
    if total_findings > 0 then
      ((agreements.length : ℚ) * 2 / (max total_findings 1 : ℕ)) * 100
    else 100
  { discrepancies := discrepancies
    agreements := agreements
    agreement_percentage := round1 agreement_percentage
    total_discrepancies := discrepancies.length
    cross_modal_confidence := round1 (100 - (discrepancies.length : ℚ) * 15) }

/-- An image-analysis quality record as consumed by
`RadiologyAnalyzer._calculate_risk_level` and
`_calculate_overall_confidence`: the `quality_metrics` dict with its
`overall_quality` entry, `none` when the dict is absent or empty. -/
structure ImgAnalysis where
  overall_quality : Option ℚ
  deriving Repr, DecidableEq

/-- Embedding of `RadiologyAnalyzer._calculate_risk_level` (`main.py`, lines
478-504): a weighted risk score accumulated from the discrepancy count,
the text-inconsistency count, low report completeness, and low-quality
images, thresholded into three levels. -/
def calculate_risk_level (num_discrepancies num_inconsistencies : ℕ)
    (completeness_score : ℚ) (image_analysis : List ImgAnalysis) : String :=
  let s1 := 0 + num_discrepancies * 20
  let s2 := s1 + num_inconsistencies * 15
  let s3 := if completeness_score < 70 then s2 + 25 else s2
  let s4 := image_analysis.foldl
    (fun s img => if img.overall_quality.getD 100 < 60 then s + 20 else s) s3
  if s4 ≥ 60 then "high" else if s4 ≥ 30 then "medium" else "low"

/-- Embedding of `RadiologyAnalyzer._calculate_overall_confidence` (`main.py`, lines
536-551): the mean of the text confidence and the available image
quality scores, plus `0.2 ×` agreement percentage, minus `5 ×` the
discrepancy count, clamped to `[30, 95]`. -/
def calculate_overall_confidence (text_confidence : ℚ)
    (image_analysis : List ImgAnalysis) (agreement_percentage : ℚ)
    (num_discrepancies : ℕ) : ℚ :=
  let confidences := text_confidence :: image_analysis.filterMap (fun a => a.overall_quality)
  let base_confidence : ℚ :=
    if confidences.length > 0 then confidences.sum / confidences.length else 70
  let agreement_bonus := agreement_percentage * (2/10)
  min 95 (max 30 (base_confidence + agreement_bonus - (num_discrepancies : ℚ) * 5))

end RadiologyAnalyzer

namespace ComprehensiveRadiologySystem

/-- The synonym dictionary of
`ComprehensiveRadiologySystem._findings_match` (`run_analysis.py`). -/
def synonyms : List (String × List String) :=
  [ ("pneumonia", ["consolidation", "opacity", "infiltrate"])
  , ("consolidation", ["pneumonia", "opacity"])
  , ("opacity", ["consolidation", "pneumonia", "infiltrate"])
  , ("effusion", ["fluid"])
  , ("pneumothorax", ["air", "collapse"]) ]

/-- One iteration of the synonym loop of `_findings_match`: the group's
key occurs in one term while one of its synonyms occurs in the other
term, checked in both directions. -/
def synGroupHit (g : String × List String) (text_term image_term : String) : Bool :=
  (strIn g.1 text_term && g.2.any (fun syn => strIn syn image_term)) ||
  (strIn g.1 image_term && g.2.any (fun syn => strIn syn text_term))

/-- The synonym loop of `_findings_match`: some synonym group hits. -/
def synMatch (text_term image_term : String) : Bool :=
  synonyms.any (fun g => synGroupHit g text_term image_term)

/-- The term-level body of `ComprehensiveRadiologySystem._findings_match`
(`run_analysis.py`, lines 209-235): lowercase both terms, succeed on
substring containment in either direction, otherwise on the synonym
table. -/
def findingsMatchTerms (textTerm imageTerm : String) : Bool :=
  let text_term := strLower textTerm
  let image_term := strLower imageTerm
  if strIn text_term image_term || strIn image_term text_term then true
  else synMatch text_term image_term

/-- The matcher `_findings_match` applied to finding records. -/
def findings_match (tf : TextFinding) (im : ImageFinding) : Bool :=
  findingsMatchTerms tf.finding im.itype

/-- An entry of the `agreements` list built by
`_perform_cross_modal_analysis`. -/
structure Agreement where
  text_finding : String
  image_finding : String
  confidence_text : ℚ
  confidence_image : ℚ
  deriving Repr, DecidableEq

/-- An entry of the `discrepancies` list built by
`_perform_cross_modal_analysis`; `dtype` is the `type` key. -/
structure Discrepancy where
  dtype : String
  description : String
  severity : String
  confidence : ℚ
  deriving Repr, DecidableEq

/-- The dict returned by `_perform_cross_modal_analysis`. -/
structure CrossModalResult where
  discrepancies : List Discrepancy
  agreements : List Agreement
  agreement_percentage : ℚ
  total_discrepancies : ℕ
  cross_modal_confidence : ℚ
  deriving Repr, DecidableEq

/-- One per-image result of `MedicalImageProcessor.process_medical_image`
as consumed by `run_analysis.py`: the `success` flag, the extracted
pathology findings, and the optional overall quality score. -/
structure ImgResult where
  success : Bool
  pathology_findings : List ImageFinding
  overall_quality_score : Option ℚ
  deriving Repr, DecidableEq

/-- The first image finding matching the given text finding, scanning
in input order (the inner loop of the text pass). -/
def firstMatchingImage (tf : TextFinding) : List ImageFinding → Option ImageFinding
  | [] => none
  | im :: ims =>
    if findings_match tf im then some im else firstMatchingImage tf ims

/-- The false-positive discrepancy record emitted by
`_perform_cross_modal_analysis` for an unmatched text finding: severity
is the text finding's own severity, defaulting to `"unknown"`. -/
def fpRecord (tf : TextFinding) : Discrepancy :=
  { dtype := "false_positive"
    description := quoteStr ++ tf.finding ++ quoteStr ++
      " mentioned in report but not detected in images"
    severity := tf.severity.getD "unknown"
    confidence := 100 - tf.confidence }

/-- The agreement record emitted for a text finding matched to image
finding `im`. -/
def agRecord (tf : TextFinding) (im : ImageFinding) : Agreement :=
  { text_finding := tf.finding
    image_finding := im.itype
    confidence_text := tf.confidence
    confidence_image := im.confidence }

/-- The first loop of `_perform_cross_modal_analysis`: each pathological
text finding yields either an agreement (first matching image finding)
or a false-positive discrepancy. -/
def textPass (imgs : List ImageFinding) :
    List TextFinding → List Discrepancy × List Agreement
  | [] => ([], [])
  | tf :: tfs =>
    let rest := textPass imgs tfs
    match firstMatchingImage tf imgs with
    | none => (fpRecord tf :: rest.1, rest.2)
    | some im => (rest.1, agRecord tf im :: rest.2)

/-- The false-negative discrepancy record emitted for an image finding
with no matching text finding: severity is the image finding's own
severity, defaulting to `"unknown"`. -/
def fnRecord (im : ImageFinding) : Discrepancy :=
  { dtype := "false_negative"
    description := quoteStr ++ im.itype ++ quoteStr ++
      " detected in images but not mentioned in report"
    severity := im.severity.getD "unknown"
    confidence := im.confidence }

/-- The second loop of `_perform_cross_modal_analysis`: a false-negative
discrepancy for every image finding no text finding matches. -/
def imagePass (tps : List TextFinding) : List ImageFinding → List Discrepancy
  | [] => []
  | im :: ims =>
    if tps.any (fun tf => findings_match tf im) then imagePass tps ims
    else fnRecord im :: imagePass tps ims

/-- The image-pathology extraction at the top of
`_perform_cross_modal_analysis`: pathology findings of the successful
image results, concatenated in order. -/
def imagePathology (image_results : List ImgResult) : List ImageFinding :=
  (image_results.map (fun r => if r.success then r.pathology_findings else [])).flatten

/-- Embedding of `ComprehensiveRadiologySystem._perform_cross_modal_analysis`
(`run_analysis.py`, lines 141-207): filters text findings to the
pathological ones, extracts image pathology, runs both matching passes,
and assembles the result dict with
`agreement_percentage = min(100, (2·|agreements| / max(total,1))·100)`
and `cross_modal_confidence = max(0, 100 − 15·|discrepancies|)`. -/
def perform_cross_modal_analysis (nlp_results : List TextFinding)
    (image_results : List ImgResult) : CrossModalResult :=
  let text_pathology := nlp_results.filter (fun f => f.ftype == "pathological")
  let image_pathology := imagePathology image_results
  let passed := textPass image_pathology text_pathology
  let discrepancies := passed.1 ++ imagePass text_pathology image_pathology
  let agreements := passed.2
  let total_findings := text_pathology.length + image_pathology.length
  let agreement_score : ℚ :=
    ((agreements.length : ℚ) * 2 / (max total_findings 1 : ℕ)) * 100
  { discrepancies := discrepancies
    agreements := agreements
    agreement_percentage := min 100 agreement_score
    total_discrepancies := discrepancies.length
    cross_modal_confidence := max 0 (100 - (discrepancies.length : ℚ) * 15) }

/-- The count-based risk rule of
`ComprehensiveRadiologySystem._generate_comprehensive_report`
(`run_analysis.py`, line 272) and of
`RadiologyMLModels.comprehensive_analysis` (`ml_models.py`, line 401):
`high` when at least two risk factors, `medium` when the list is
non-empty, `low` otherwise. -/
def riskFromFactors (risk_factors : List String) : String :=
  if risk_factors.length ≥ 2 then "high"
  else if risk_factors ≠ [] then "medium"
  else "low"

/-- Numeric rank of the three risk levels, for stating monotonicity. -/
def riskRank (level : String) : ℕ :=
  if level == "high" then 2 else if level == "medium" then 1 else 0

/-- The overall-confidence computation of
`_generate_comprehensive_report` (`run_analysis.py`, lines 274-280):
the mean of the ML confidence (a fraction in `[0,1]`), the cross-modal
confidence divided by 100, and the report score divided by 100, scaled
back to a percentage. -/
def reportOverallConfidence (ml_confidence cross_modal_confidence
    report_score : ℚ) : ℚ :=
  ((ml_confidence + cross_modal_confidence / 100 + report_score / 100) / 3) * 100

end ComprehensiveRadiologySystem

namespace RadiologyMLModels

/-- The dict returned by `predict_pathology` when the models are
trained. -/
structure PathologyPred where
  has_pathology : Bool
  confidence : ℚ
  probability_pathology : ℚ
  probability_normal : ℚ

/-- The dict returned by `predict_severity` when trained. -/
structure SeverityPred where
  severity : String
  confidence : ℚ

/-- The dict returned by `predict_quality` when trained. -/
structure QualityPred where
  quality : String
  confidence : ℚ
  score : ℚ

/-- The dict returned by `predict_discrepancy` when trained. -/
structure DiscrepancyPred where
  has_discrepancy : Bool
  confidence : ℚ
  risk_level : String

/-- A feature dict passed to the predictors (`features` argument). -/
def Features : Type := List (String × ℚ)

/-- The state of a `RadiologyMLModels` instance: the trained flag and
the four fitted predictor heads (the sklearn models and scalers are
external; their behaviour once trained is abstracted into one function
per head, applied to the feature dict). -/
structure MLModels where
  is_trained : Bool
  pathologyHead : Features → PathologyPred
  severityHead : Features → SeverityPred
  qualityHead : Features → QualityPred
  discrepancyHead : Features → DiscrepancyPred

/-- Embedding of `RadiologyMLModels.predict_pathology` (`ml_models.py`, lines
237-257): an error record when the models are untrained, otherwise the
fitted head's prediction; the model state is returned unchanged to make
explicit that the method never mutates it. -/
def predict_pathology (st : MLModels) (features : Features) :
    Except String PathologyPred × MLModels :=
  if st.is_trained then (.ok (st.pathologyHead features), st)
  else (.error "Models not trained yet", st)

/-- Embedding of `RadiologyMLModels.predict_severity` (`ml_models.py`, lines 259-281). -/
def predict_severity (st : MLModels) (features : Features) :
    Except String SeverityPred × MLModels :=
  if st.is_trained then (.ok (st.severityHead features), st)
  else (.error "Models not trained yet", st)

/-- Embedding of `RadiologyMLModels.predict_quality` (`ml_models.py`, lines 283-306). -/
def predict_quality (st : MLModels) (features : Features) :
    Except String QualityPred × MLModels :=
  if st.is_trained then (.ok (st.qualityHead features), st)
  else (.error "Models not trained yet", st)

/-- Embedding of `RadiologyMLModels.predict_discrepancy` (`ml_models.py`, lines
308-325). -/
def predict_discrepancy (st : MLModels) (features : Features) :
    Except String DiscrepancyPred × MLModels :=
  if st.is_trained then (.ok (st.discrepancyHead features), st)
  else (.error "Models not trained yet", st)

/-- A concrete freshly constructed model state before `train_models` has
run: `is_trained` is false and the heads are the (never consulted)
constant predictors. -/
def untrainedModels : MLModels :=
  { is_trained := false
    pathologyHead := fun _ => ⟨false, 0, 0, 0⟩
    severityHead := fun _ => ⟨"mild", 0⟩
    qualityHead := fun _ => ⟨"poor", 0, 25⟩
    discrepancyHead := fun _ => ⟨false, 0, "low"⟩ }

end RadiologyMLModels

/-! ## Helper lemmas -/

namespace ComprehensiveRadiologySystem

theorem synGroupHit_comm (g : String × List String) (x y : String) :
    synGroupHit g x y = synGroupHit g y x :=
  Bool.or_comm _ _

theorem anyGroupHit_comm (gs : List (String × List String)) (x y : String) :
    gs.any (fun g => synGroupHit g x y) = gs.any (fun g => synGroupHit g y x) := by
  induction gs with
  | nil => rfl
  | cons g gs ih => simp only [List.any_cons, ih, synGroupHit_comm]

theorem synMatch_comm (x y : String) : synMatch x y = synMatch y x :=
  anyGroupHit_comm synonyms x y

end ComprehensiveRadiologySystem

/-! ## Claim theorems -/

/-- C2: the finding matcher of `_findings_match` (substring in either
direction, then the synonym table in either direction) is symmetric in
its two terms: `matches(a, b) = matches(b, a)`. -/
theorem claim2_matcher_symmetric (a b : String) :
    ComprehensiveRadiologySystem.findingsMatchTerms a b =
      ComprehensiveRadiologySystem.findingsMatchTerms b a := by
  unfold ComprehensiveRadiologySystem.findingsMatchTerms
  cases h1 : strIn (strLower a) (strLower b) <;>
    cases h2 : strIn (strLower b) (strLower a) <;>
      simp [h1, h2, ComprehensiveRadiologySystem.synMatch_comm]

/-- C8: the count-based risk rule (`high` for at least two risk factors,
`medium` for one, `low` for none) is monotone: adding a risk factor
never lowers the risk level. -/
theorem claim8_risk_monotone (risk_factors : List String) (f : String) :
    ComprehensiveRadiologySystem.riskRank
        (ComprehensiveRadiologySystem.riskFromFactors risk_factors) ≤
      ComprehensiveRadiologySystem.riskRank
        (ComprehensiveRadiologySystem.riskFromFactors (f :: risk_factors)) := by
  match risk_factors with
  | [] => simp [ComprehensiveRadiologySystem.riskFromFactors,
      ComprehensiveRadiologySystem.riskRank]
  | [a] => simp [ComprehensiveRadiologySystem.riskFromFactors,
      ComprehensiveRadiologySystem.riskRank]
  | a :: b :: l =>
    have h2 : 2 ≤ (a :: b :: l).length := by simp
    have h3 : 2 ≤ (f :: a :: b :: l).length := by simp
    simp [ComprehensiveRadiologySystem.riskFromFactors, h2, h3]

/-- C9: with the models untrained, each of the four predictors returns
the error record `"Models not trained yet"` instead of raising, and the
model state is unchanged. -/
theorem claim9_untrained_predictors (st : RadiologyMLModels.MLModels)
    (features : RadiologyMLModels.Features) (h : st.is_trained = false) :
    RadiologyMLModels.predict_pathology st features =
        (.error "Models not trained yet", st) ∧
      RadiologyMLModels.predict_severity st features =
        (.error "Models not trained yet", st) ∧
      RadiologyMLModels.predict_quality st features =
        (.error "Models not trained yet", st) ∧
      RadiologyMLModels.predict_discrepancy st features =
        (.error "Models not trained yet", st) := by
  simp [RadiologyMLModels.predict_pathology, RadiologyMLModels.predict_severity,
    RadiologyMLModels.predict_quality, RadiologyMLModels.predict_discrepancy, h]

/-- Witness for C9: the theorem applied to a concrete untrained model
state and an empty feature dict. -/
theorem claim9_witness :
    RadiologyMLModels.predict_pathology RadiologyMLModels.untrainedModels [] =
        (.error "Models not trained yet", RadiologyMLModels.untrainedModels) ∧
      RadiologyMLModels.predict_severity RadiologyMLModels.untrainedModels [] =
        (.error "Models not trained yet", RadiologyMLModels.untrainedModels) ∧
      RadiologyMLModels.predict_quality RadiologyMLModels.untrainedModels [] =
        (.error "Models not trained yet", RadiologyMLModels.untrainedModels) ∧
      RadiologyMLModels.predict_discrepancy RadiologyMLModels.untrainedModels [] =
        (.error "Models not trained yet", RadiologyMLModels.untrainedModels) :=
  claim9_untrained_predictors RadiologyMLModels.untrainedModels [] rfl

namespace RadiologyAnalyzer

theorem foldl_quality_count (l : List ImgAnalysis) (a : ℕ) :
    l.foldl (fun s img => if img.overall_quality.getD 100 < 60 then s + 20 else s) a =
      a + 20 * l.countP (fun img => img.overall_quality.getD 100 < 60) := by
  induction l generalizing a with
  | nil => simp
  | cons i l ih =>
    by_cases h : i.overall_quality.getD 100 < 60
    · simp [List.countP_cons, h, ih]
      ring
    · simp [List.countP_cons, h, ih]

end RadiologyAnalyzer

/-- C7: the weighted risk-scoring variant computes
`20·|discrepancies| + 15·|text inconsistencies| + 25 (if completeness
< 70) + 20·|image analyses with overall quality < 60|`, and thresholds
at `≥ 60 → high`, `≥ 30 → medium`, else `low`. -/
theorem claim7_weighted_risk (num_discrepancies num_inconsistencies : ℕ)
    (completeness_score : ℚ) (image_analysis : List RadiologyAnalyzer.ImgAnalysis) :
    RadiologyAnalyzer.calculate_risk_level num_discrepancies num_inconsistencies
        completeness_score image_analysis =
      (if 60 ≤ 20 * num_discrepancies + 15 * num_inconsistencies +
            (if completeness_score < 70 then 25 else 0) +
            20 * image_analysis.countP (fun i => i.overall_quality.getD 100 < 60)
        then "high"
        else if 30 ≤ 20 * num_discrepancies + 15 * num_inconsistencies +
            (if completeness_score < 70 then 25 else 0) +
            20 * image_analysis.countP (fun i => i.overall_quality.getD 100 < 60)
          then "medium" else "low") := by
  unfold RadiologyAnalyzer.calculate_risk_level
  by_cases hc : completeness_score < 70
  · simp only [if_pos hc, RadiologyAnalyzer.foldl_quality_count, ge_iff_le]
    have he : 0 + num_discrepancies * 20 + num_inconsistencies * 15 + 25 +
          20 * image_analysis.countP (fun i => i.overall_quality.getD 100 < 60) =
        20 * num_discrepancies + 15 * num_inconsistencies + 25 +
          20 * image_analysis.countP (fun i => i.overall_quality.getD 100 < 60) := by
      ring
    rw [he]
  · simp only [if_neg hc, RadiologyAnalyzer.foldl_quality_count, ge_iff_le]
    have he : 0 + num_discrepancies * 20 + num_inconsistencies * 15 +
          20 * image_analysis.countP (fun i => i.overall_quality.getD 100 < 60) =
        20 * num_discrepancies + 15 * num_inconsistencies + 0 +
          20 * image_analysis.countP (fun i => i.overall_quality.getD 100 < 60) := by
      ring
    rw [he]

/-- Counterexample for C1: on empty inputs
`_perform_cross_modal_analysis` (`run_analysis.py`) returns
`agreement_percentage = 0`, not `100` — it lacks the empty-input guard
that `compare_image_and_text` has. -/
theorem claim1_counterexample :
    (ComprehensiveRadiologySystem.perform_cross_modal_analysis
        [] []).agreement_percentage = 0 ∧
      (ComprehensiveRadiologySystem.perform_cross_modal_analysis
        [] []).agreement_percentage ≠ 100 := by
  have h : (ComprehensiveRadiologySystem.perform_cross_modal_analysis
      [] []).agreement_percentage = 0 := by
    norm_num [ComprehensiveRadiologySystem.perform_cross_modal_analysis,
      ComprehensiveRadiologySystem.textPass, ComprehensiveRadiologySystem.imagePass,
      ComprehensiveRadiologySystem.imagePathology]
  exact ⟨h, by rw [h]; norm_num⟩

/-- C1 (amended): with zero pathological text findings and zero image
findings, both reconciliation operations emit zero discrepancies;
`compare_image_and_text` (`main.py`) returns
`agreement_percentage = 100`, while `_perform_cross_modal_analysis`
(`run_analysis.py`) returns `agreement_percentage = 0`. -/
theorem claim1_empty_both_sides (image_findings : List ImageFinding)
    (text_findings : List TextFinding)
    (image_results : List ComprehensiveRadiologySystem.ImgResult)
    (htext : text_findings.filter (fun f => f.ftype == "pathological") = [])
    (himg : image_findings = [])
    (hres : ComprehensiveRadiologySystem.imagePathology image_results = []) :
    (RadiologyAnalyzer.compare_image_and_text image_findings
        text_findings).discrepancies = [] ∧
      (RadiologyAnalyzer.compare_image_and_text image_findings
        text_findings).agreement_percentage = 100 ∧
      (ComprehensiveRadiologySystem.perform_cross_modal_analysis text_findings
        image_results).discrepancies = [] ∧
      (ComprehensiveRadiologySystem.perform_cross_modal_analysis text_findings
        image_results).agreement_percentage = 0 := by
  subst himg
  refine ⟨?_, ?_, ?_, ?_⟩ <;>
    norm_num [RadiologyAnalyzer.compare_image_and_text,
      ComprehensiveRadiologySystem.perform_cross_modal_analysis, htext, hres,
      RadiologyAnalyzer.textPass, RadiologyAnalyzer.imagePass,
      ComprehensiveRadiologySystem.textPass, ComprehensiveRadiologySystem.imagePass,
      round1, roundHalfEven]

/-- Witness for C1 (amended): both reconciliation operations applied to
literally empty inputs. -/
theorem claim1_witness :
    (RadiologyAnalyzer.compare_image_and_text [] []).discrepancies = [] ∧
      (RadiologyAnalyzer.compare_image_and_text [] []).agreement_percentage = 100 ∧
      (ComprehensiveRadiologySystem.perform_cross_modal_analysis
        [] []).discrepancies = [] ∧
      (ComprehensiveRadiologySystem.perform_cross_modal_analysis
        [] []).agreement_percentage = 0 :=
  claim1_empty_both_sides [] [] [] rfl rfl rfl

/-- Counterexample for C3: `compare_image_and_text` (`main.py`) omits
the `min(100, …)` cap, and its greedy pairing lets one image finding
match several text findings, so the agreement percentage reaches 150. -/
theorem claim3_counterexample :
    (RadiologyAnalyzer.compare_image_and_text [⟨"abc", none, 50⟩]
        [⟨"pathological", "a", none, 10⟩, ⟨"pathological", "ab", none, 20⟩,
          ⟨"pathological", "abc", none, 30⟩]).agreement_percentage = 150 ∧
      ¬ (RadiologyAnalyzer.compare_image_and_text [⟨"abc", none, 50⟩]
        [⟨"pathological", "a", none, 10⟩, ⟨"pathological", "ab", none, 20⟩,
          ⟨"pathological", "abc", none, 30⟩]).agreement_percentage ≤ 100 := by
  have h : (RadiologyAnalyzer.compare_image_and_text [⟨"abc", none, 50⟩]
      [⟨"pathological", "a", none, 10⟩, ⟨"pathological", "ab", none, 20⟩,
        ⟨"pathological", "abc", none, 30⟩]).agreement_percentage = 150 := by
    norm_num [RadiologyAnalyzer.compare_image_and_text, RadiologyAnalyzer.textPass,
      RadiologyAnalyzer.imagePass, RadiologyAnalyzer.findMatchingImage,
      RadiologyAnalyzer.findMatchingText, RadiologyAnalyzer.matchTerms, strIn,
      strLower, charsContain, charsStartWith, round1, roundHalfEven]
  exact ⟨h, by rw [h]; norm_num⟩

/-- C3 (amended): `_perform_cross_modal_analysis` (`run_analysis.py`)
does return `min(100, 2·|agreements| / max(total, 1) · 100)` and never
exceeds 100; `compare_image_and_text` (`main.py`) returns the raw
uncapped ratio (rounded; 100 when total is zero) and can exceed 100. -/
theorem claim3_run_agreement_formula (nlp_results : List TextFinding)
    (image_results : List ComprehensiveRadiologySystem.ImgResult) :
    (ComprehensiveRadiologySystem.perform_cross_modal_analysis nlp_results
        image_results).agreement_percentage =
      min 100
        (((ComprehensiveRadiologySystem.perform_cross_modal_analysis nlp_results
            image_results).agreements.length : ℚ) * 2 /
          (max ((nlp_results.filter (fun f => f.ftype == "pathological")).length +
            (ComprehensiveRadiologySystem.imagePathology image_results).length) 1 : ℕ) *
          100) ∧
      (ComprehensiveRadiologySystem.perform_cross_modal_analysis nlp_results
        image_results).agreement_percentage ≤ 100 :=
  ⟨rfl, min_le_left _ _⟩

/-- Counterexample for C4: with seven unmatched text findings,
`compare_image_and_text` (`main.py`) returns
`cross_modal_confidence = −5` — it omits the `max(0, …)` clamp. -/
theorem claim4_counterexample :
    (RadiologyAnalyzer.compare_image_and_text []
        [⟨"pathological", "q1", some "mild", 50⟩,
          ⟨"pathological", "q2", some "mild", 50⟩,
          ⟨"pathological", "q3", some "mild", 50⟩,
          ⟨"pathological", "q4", some "mild", 50⟩,
          ⟨"pathological", "q5", some "mild", 50⟩,
          ⟨"pathological", "q6", some "mild", 50⟩,
          ⟨"pathological", "q7", some "mild", 50⟩]).cross_modal_confidence = -5 ∧
      ¬ 0 ≤ (RadiologyAnalyzer.compare_image_and_text []
        [⟨"pathological", "q1", some "mild", 50⟩,
          ⟨"pathological", "q2", some "mild", 50⟩,
          ⟨"pathological", "q3", some "mild", 50⟩,
          ⟨"pathological", "q4", some "mild", 50⟩,
          ⟨"pathological", "q5", some "mild", 50⟩,
          ⟨"pathological", "q6", some "mild", 50⟩,
          ⟨"pathological", "q7", some "mild", 50⟩]).cross_modal_confidence := by
  have h : (RadiologyAnalyzer.compare_image_and_text []
      [⟨"pathological", "q1", some "mild", 50⟩,
        ⟨"pathological", "q2", some "mild", 50⟩,
        ⟨"pathological", "q3", some "mild", 50⟩,
        ⟨"pathological", "q4", some "mild", 50⟩,
        ⟨"pathological", "q5", some "mild", 50⟩,
        ⟨"pathological", "q6", some "mild", 50⟩,
        ⟨"pathological", "q7", some "mild", 50⟩]).cross_modal_confidence = -5 := by
    norm_num [RadiologyAnalyzer.compare_image_and_text, RadiologyAnalyzer.textPass,
      RadiologyAnalyzer.imagePass, RadiologyAnalyzer.findMatchingImage,
      RadiologyAnalyzer.findMatchingText, RadiologyAnalyzer.matchTerms, strIn,
      strLower, charsContain, charsStartWith, round1, roundHalfEven]
  exact ⟨h, by rw [h]; norm_num⟩

/-- C4 (amended): `_perform_cross_modal_analysis` (`run_analysis.py`)
does return `max(0, 100 − 15·|discrepancies|)`, never negative;
`compare_image_and_text` (`main.py`) returns `100 − 15·|discrepancies|`
unclamped, negative once there are seven or more discrepancies. -/
theorem claim4_run_confidence_clamped (nlp_results : List TextFinding)
    (image_results : List ComprehensiveRadiologySystem.ImgResult) :
    (ComprehensiveRadiologySystem.perform_cross_modal_analysis nlp_results
        image_results).cross_modal_confidence =
      max 0 (100 - 15 *
        ((ComprehensiveRadiologySystem.perform_cross_modal_analysis nlp_results
          image_results).total_discrepancies : ℚ)) ∧
      0 ≤ (ComprehensiveRadiologySystem.perform_cross_modal_analysis nlp_results
        image_results).cross_modal_confidence := by
  constructor
  · simp [ComprehensiveRadiologySystem.perform_cross_modal_analysis, mul_comm]
  · exact le_max_left _ _

/-- Counterexample for C6: the whole-case confidence computed by
`_generate_comprehensive_report` (`run_analysis.py`) is a different,
unclamped formula; at maximal inputs it returns 100, outside `[30, 95]`. -/
theorem claim6_counterexample :
    ComprehensiveRadiologySystem.reportOverallConfidence 1 100 100 = 100 ∧
      ¬ ComprehensiveRadiologySystem.reportOverallConfidence 1 100 100 ≤ 95 := by
  norm_num [ComprehensiveRadiologySystem.reportOverallConfidence]

/-- C6 (amended): `RadiologyAnalyzer._calculate_overall_confidence`
(`main.py`) equals the mean of the available confidence inputs plus
`0.2 ×` agreement percentage minus `5 ×` the discrepancy count, clamped
to `[30, 95]`, and in particular always lies in `[30, 95]`; the
synthesizer in `run_analysis.py` instead averages three normalized
scores without clamping (see the counterexample). -/
theorem claim6_confidence_clamped (text_confidence : ℚ)
    (image_analysis : List RadiologyAnalyzer.ImgAnalysis)
    (agreement_percentage : ℚ) (num_discrepancies : ℕ) :
    RadiologyAnalyzer.calculate_overall_confidence text_confidence image_analysis
        agreement_percentage num_discrepancies =
      min 95 (max 30
        ((text_confidence ::
            image_analysis.filterMap (fun a => a.overall_quality)).sum /
          (text_confidence ::
            image_analysis.filterMap (fun a => a.overall_quality)).length +
          (2/10) * agreement_percentage - 5 * num_discrepancies)) ∧
      30 ≤ RadiologyAnalyzer.calculate_overall_confidence text_confidence
        image_analysis agreement_percentage num_discrepancies ∧
      RadiologyAnalyzer.calculate_overall_confidence text_confidence
        image_analysis agreement_percentage num_discrepancies ≤ 95 := by
  unfold RadiologyAnalyzer.calculate_overall_confidence
  refine ⟨?_, le_min (by norm_num) (le_max_left _ _), min_le_left _ _⟩
  have hpos : 0 < (text_confidence ::
      image_analysis.filterMap (fun a => a.overall_quality)).length :=
    Nat.succ_pos _
  simp only [gt_iff_lt, hpos, if_true]
  congr 2
  ring

namespace ComprehensiveRadiologySystem

theorem textPass_fst_of_unmatched (imgs : List ImageFinding)
    (tfs : List TextFinding) (tf : TextFinding) (htf : tf ∈ tfs)
    (hnone : firstMatchingImage tf imgs = none) :
    fpRecord tf ∈ (textPass imgs tfs).1 := by
  induction tfs with
  | nil => cases htf
  | cons t ts ih =>
    rcases List.mem_cons.mp htf with h | h
    · subst h
      simp [textPass, hnone]
    · cases hm : firstMatchingImage t imgs <;> simp [textPass, hm, ih h]

theorem imagePass_of_unmatched (tps : List TextFinding)
    (imgs : List ImageFinding) (im : ImageFinding) (him : im ∈ imgs)
    (hno : tps.any (fun tf => findings_match tf im) = false) :
    fnRecord im ∈ imagePass tps imgs := by
  induction imgs with
  | nil => cases him
  | cons i is ih =>
    rcases List.mem_cons.mp him with h | h
    · subst h
      simp [imagePass, hno]
    · by_cases hi : tps.any (fun tf => findings_match tf i) = true <;>
        simp [imagePass, hi, ih h]

end ComprehensiveRadiologySystem

/-- Counterexample for C5: `compare_image_and_text` (`main.py`)
hardcodes the severities of its discrepancies (`"medium"` for false
positives, `"high"` for false negatives) instead of propagating the
finding's own severity — a text finding of severity `"mild"` yields a
false-positive discrepancy of severity `"medium"`. -/
theorem claim5_counterexample :
    (RadiologyAnalyzer.compare_image_and_text []
        [⟨"pathological", "fracture", some "mild", 90⟩]).discrepancies.map
        (fun d => (d.dtype, d.severity)) = [("false_positive", "medium")] ∧
      some "medium" ≠ (⟨"pathological", "fracture", some "mild",
        (90 : ℚ)⟩ : TextFinding).severity := by
  constructor
  · norm_num [RadiologyAnalyzer.compare_image_and_text, RadiologyAnalyzer.textPass,
      RadiologyAnalyzer.imagePass, RadiologyAnalyzer.findMatchingImage,
      RadiologyAnalyzer.findMatchingText, RadiologyAnalyzer.fpRecord]
  · simp

/-- C5 (amended): in `_perform_cross_modal_analysis`
(`run_analysis.py`), every pathological text finding that matches no
image finding yields a false-positive discrepancy with
`confidence = 100 − text.confidence` and the finding's own severity
(defaulting to `"unknown"`), and every image finding that no text
finding matches yields a false-negative discrepancy with
`confidence = image.confidence` and the image finding's own severity
(defaulting to `"unknown"`); `compare_image_and_text` (`main.py`) uses
the same confidences but hardcodes the severities. -/
theorem claim5_run_discrepancy_fields (nlp_results : List TextFinding)
    (image_results : List ComprehensiveRadiologySystem.ImgResult) :
    (∀ tf ∈ nlp_results.filter (fun f => f.ftype == "pathological"),
      ComprehensiveRadiologySystem.firstMatchingImage tf
          (ComprehensiveRadiologySystem.imagePathology image_results) = none →
        ComprehensiveRadiologySystem.fpRecord tf ∈
            (ComprehensiveRadiologySystem.perform_cross_modal_analysis nlp_results
              image_results).discrepancies ∧
          (ComprehensiveRadiologySystem.fpRecord tf).dtype = "false_positive" ∧
          (ComprehensiveRadiologySystem.fpRecord tf).confidence =
            100 - tf.confidence ∧
          (ComprehensiveRadiologySystem.fpRecord tf).severity =
            tf.severity.getD "unknown") ∧
    (∀ im ∈ ComprehensiveRadiologySystem.imagePathology image_results,
      (nlp_results.filter (fun f => f.ftype == "pathological")).any
          (fun tf => ComprehensiveRadiologySystem.findings_match tf im) = false →
        ComprehensiveRadiologySystem.fnRecord im ∈
            (ComprehensiveRadiologySystem.perform_cross_modal_analysis nlp_results
              image_results).discrepancies ∧
          (ComprehensiveRadiologySystem.fnRecord im).dtype = "false_negative" ∧
          (ComprehensiveRadiologySystem.fnRecord im).confidence = im.confidence ∧
          (ComprehensiveRadiologySystem.fnRecord im).severity =
            im.severity.getD "unknown") := by
  constructor
  · intro tf htf hnone
    refine ⟨?_, rfl, rfl, rfl⟩
    exact List.mem_append_left _
      (ComprehensiveRadiologySystem.textPass_fst_of_unmatched _ _ tf htf hnone)
  · intro im him hno
    refine ⟨?_, rfl, rfl, rfl⟩
    exact List.mem_append_right _
      (ComprehensiveRadiologySystem.imagePass_of_unmatched _ _ im him hno)

/-- Witness for C5 (amended): a single pathological text finding of
severity `"moderate"` and confidence 80 with no images yields the
false-positive discrepancy with confidence 20 and severity
`"moderate"`; a single image finding of severity `"mild"` and
confidence 60 with no text yields the false-negative discrepancy with
confidence 60 and severity `"mild"`. -/
theorem claim5_witness :
    (ComprehensiveRadiologySystem.fpRecord
          ⟨"pathological", "fracture", some "moderate", 80⟩ ∈
        (ComprehensiveRadiologySystem.perform_cross_modal_analysis
          [⟨"pathological", "fracture", some "moderate", 80⟩] []).discrepancies ∧
      (ComprehensiveRadiologySystem.fpRecord
        ⟨"pathological", "fracture", some "moderate", 80⟩).dtype = "false_positive" ∧
      (ComprehensiveRadiologySystem.fpRecord
        ⟨"pathological", "fracture", some "moderate", 80⟩).confidence = 100 - 80 ∧
      (ComprehensiveRadiologySystem.fpRecord
        ⟨"pathological", "fracture", some "moderate", 80⟩).severity = "moderate") ∧
    (ComprehensiveRadiologySystem.fnRecord ⟨"nodule", some "mild", 60⟩ ∈
        (ComprehensiveRadiologySystem.perform_cross_modal_analysis []
          [⟨true, [⟨"nodule", some "mild", 60⟩], none⟩]).discrepancies ∧
      (ComprehensiveRadiologySystem.fnRecord
        ⟨"nodule", some "mild", 60⟩).dtype = "false_negative" ∧
      (ComprehensiveRadiologySystem.fnRecord
        ⟨"nodule", some "mild", 60⟩).confidence = 60 ∧
      (ComprehensiveRadiologySystem.fnRecord
        ⟨"nodule", some "mild", 60⟩).severity = "mild") := by
  constructor
  · exact (claim5_run_discrepancy_fields
        [⟨"pathological", "fracture", some "moderate", 80⟩] []).1
      ⟨"pathological", "fracture", some "moderate", 80⟩ (by simp) rfl
  · exact (claim5_run_discrepancy_fields []
        [⟨true, [⟨"nodule", some "mild", 60⟩], none⟩]).2
      ⟨"nodule", some "mild", 60⟩ (by simp [ComprehensiveRadiologySystem.imagePathology]) rfl

namespace RadiologyAnalyzer

theorem textPass_count (imgs : List ImageFinding) (tfs : List TextFinding) :
    (textPass imgs tfs).2.length + (textPass imgs tfs).1.length = tfs.length := by
  induction tfs with
  | nil => simp [textPass]
  | cons tf tfs ih =>
    cases hm : findMatchingImage tf imgs <;> simp [textPass, hm] <;> omega

theorem textPass_fst_fp (imgs : List ImageFinding) (tfs : List TextFinding)
    (d : Discrepancy) (hd : d ∈ (textPass imgs tfs).1) :
    d.dtype = "false_positive" := by
  induction tfs with
  | nil => simp [textPass] at hd
  | cons tf tfs ih =>
    cases hm : findMatchingImage tf imgs
    · simp only [textPass, hm] at hd
      rcases List.mem_cons.mp hd with h | h
      · subst h; rfl
      · exact ih h
    · simp only [textPass, hm] at hd
      exact ih hd

theorem imagePass_fn (tps : List TextFinding) (imgs : List ImageFinding)
    (d : Discrepancy) (hd : d ∈ imagePass tps imgs) :
    d.dtype = "false_negative" := by
  induction imgs with
  | nil => simp [imagePass] at hd
  | cons im ims ih =>
    cases hm : findMatchingText im tps
    · simp only [imagePass, hm] at hd
      rcases List.mem_cons.mp hd with h | h
      · subst h; rfl
      · exact ih h
    · simp only [imagePass, hm] at hd
      exact ih hd

end RadiologyAnalyzer

namespace ComprehensiveRadiologySystem

theorem crossTextPass_count (imgs : List ImageFinding) (tfs : List TextFinding) :
    (textPass imgs tfs).2.length + (textPass imgs tfs).1.length = tfs.length := by
  induction tfs with
  | nil => simp [textPass]
  | cons tf tfs ih =>
    cases hm : firstMatchingImage tf imgs <;> simp [textPass, hm] <;> omega

theorem crossTextPass_fst_fp (imgs : List ImageFinding) (tfs : List TextFinding)
    (d : Discrepancy) (hd : d ∈ (textPass imgs tfs).1) :
    d.dtype = "false_positive" := by
  induction tfs with
  | nil => simp [textPass] at hd
  | cons tf tfs ih =>
    cases hm : firstMatchingImage tf imgs
    · simp only [textPass, hm] at hd
      rcases List.mem_cons.mp hd with h | h
      · subst h; rfl
      · exact ih h
    · simp only [textPass, hm] at hd
      exact ih hd

theorem crossImagePass_fn (tps : List TextFinding) (imgs : List ImageFinding)
    (d : Discrepancy) (hd : d ∈ imagePass tps imgs) :
    d.dtype = "false_negative" := by
  induction imgs with
  | nil => simp [imagePass] at hd
  | cons im ims ih =>
    by_cases hm : tps.any (fun tf => findings_match tf im) = true
    · simp only [imagePass, hm, if_true] at hd
      exact ih hd
    · simp only [imagePass, hm, if_false, Bool.false_eq_true] at hd
      rcases List.mem_cons.mp hd with h | h
      · subst h; rfl
      · exact ih h

end ComprehensiveRadiologySystem

/-- C10: in both reconciliation operations, each pathological text
finding contributes exactly one output record (an agreement or a
false-positive discrepancy), so
`|agreements| + |false-positive discrepancies|` equals the number of
pathological text findings. -/
theorem claim10_text_partition (image_findings : List ImageFinding)
    (text_findings : List TextFinding) (nlp_results : List TextFinding)
    (image_results : List ComprehensiveRadiologySystem.ImgResult) :
    ((RadiologyAnalyzer.compare_image_and_text image_findings
          text_findings).agreements.length +
        ((RadiologyAnalyzer.compare_image_and_text image_findings
          text_findings).discrepancies.filter
            (fun d => d.dtype == "false_positive")).length =
      (text_findings.filter (fun f => f.ftype == "pathological")).length) ∧
    ((ComprehensiveRadiologySystem.perform_cross_modal_analysis nlp_results
          image_results).agreements.length +
        ((ComprehensiveRadiologySystem.perform_cross_modal_analysis nlp_results
          image_results).discrepancies.filter
            (fun d => d.dtype == "false_positive")).length =
      (nlp_results.filter (fun f => f.ftype == "pathological")).length) := by
  constructor
  · simp only [RadiologyAnalyzer.compare_image_and_text, List.filter_append]
    have hfp : List.filter (fun d => d.dtype == "false_positive")
        (RadiologyAnalyzer.textPass image_findings
          (List.filter (fun f => f.ftype == "pathological") text_findings)).1 =
        (RadiologyAnalyzer.textPass image_findings
          (List.filter (fun f => f.ftype == "pathological") text_findings)).1 :=
      List.filter_eq_self.mpr (fun d hd => by
        simp [RadiologyAnalyzer.textPass_fst_fp _ _ d hd])
    have hfn : List.filter (fun d => d.dtype == "false_positive")
        (RadiologyAnalyzer.imagePass
          (List.filter (fun f => f.ftype == "pathological") text_findings)
          image_findings) = [] :=
      List.filter_eq_nil_iff.mpr (fun d hd => by
        simp [RadiologyAnalyzer.imagePass_fn _ _ d hd])
    rw [hfp, hfn]
    simpa using RadiologyAnalyzer.textPass_count image_findings
      (text_findings.filter (fun f => f.ftype == "pathological"))
  · simp only [ComprehensiveRadiologySystem.perform_cross_modal_analysis,
      List.filter_append]
    have hfp : List.filter (fun d => d.dtype == "false_positive")
        (ComprehensiveRadiologySystem.textPass
          (ComprehensiveRadiologySystem.imagePathology image_results)
          (List.filter (fun f => f.ftype == "pathological") nlp_results)).1 =
        (ComprehensiveRadiologySystem.textPass
          (ComprehensiveRadiologySystem.imagePathology image_results)
          (List.filter (fun f => f.ftype == "pathological") nlp_results)).1 :=
      List.filter_eq_self.mpr (fun d hd => by
        simp [ComprehensiveRadiologySystem.crossTextPass_fst_fp _ _ d hd])
    have hfn : List.filter (fun d => d.dtype == "false_positive")
        (ComprehensiveRadiologySystem.imagePass
          (List.filter (fun f => f.ftype == "pathological") nlp_results)
          (ComprehensiveRadiologySystem.imagePathology image_results)) = [] :=
      List.filter_eq_nil_iff.mpr (fun d hd => by
        simp [ComprehensiveRadiologySystem.crossImagePass_fn _ _ d hd])
    rw [hfp, hfn]
    simpa using ComprehensiveRadiologySystem.crossTextPass_count
      (ComprehensiveRadiologySystem.imagePathology image_results)
      (nlp_results.filter (fun f => f.ftype == "pathological"))
